import Mathlib

/-!
Shallow embedding of the financial calculation engine of the repository
(Django backend: `apps/business/models.py`, `apps/business/views.py`,
`apps/business/serializers.py`, `apps/business/signals.py`, and
`financial/models.py`).  Monetary values are embedded as `ℚ` (the source
uses Python `Decimal` exact-decimal arithmetic), calendar dates as a
year/month/day record ordered lexicographically (Python `datetime.date`
ordering).
-/

namespace Financial

/-- Calendar date, `datetime.date`: year, month, day. -/
structure Date where
  year : Nat
  month : Nat
  day : Nat
deriving DecidableEq, Repr

/-- Python `date` ordering is lexicographic on (year, month, day). -/
def Date.ble (a b : Date) : Bool :=
  decide (a.year < b.year) ||
    (decide (a.year = b.year) &&
      (decide (a.month < b.month) ||
        (decide (a.month = b.month) && decide (a.day ≤ b.day))))

/-- Python `min` of two dates. -/
def Date.min (a b : Date) : Date :=
  if Date.ble a b then a else b

/-- Transaction status choices shared by `Income` and `Expense`
(`STATUS_CHOICES` in `apps/business/models.py`): 未確定 / 確定 / キャンセル. -/
inductive Status where
  | pending
  | confirmed
  | cancelled
deriving DecidableEq, Repr

/-- The fields of `apps.business.models.Income` used by the calculation
engine.  `userId` stands for the `user` foreign key, `categoryName` for
`category.name`. -/
structure Income where
  userId : Nat
  date : Date
  amount : ℚ
  taxAmount : ℚ
  taxRate : ℚ
  isTaxInclusive : Bool
  status : Status
  categoryName : String
deriving DecidableEq, Repr

/-- The fields of `apps.business.models.Expense` used by the calculation
engine; `Expense` adds `business_use_percentage` to the `Income` shape. -/
structure Expense where
  userId : Nat
  date : Date
  amount : ℚ
  taxAmount : ℚ
  taxRate : ℚ
  isTaxInclusive : Bool
  businessUsePercentage : ℚ
  status : Status
  categoryName : String
deriving DecidableEq, Repr

/-- `Income.calculate_tax_amount` (`apps/business/models.py`):
tax-inclusive gives `amount * tax_rate / (100 + tax_rate)`, otherwise
`amount * tax_rate / 100`. -/
def incomeCalculateTaxAmount (amount taxRate : ℚ) (isTaxInclusive : Bool) : ℚ :=
  if isTaxInclusive then
    amount * taxRate / (100 + taxRate)
  else
    amount * taxRate / 100

/-- `Expense.calculate_tax_amount` (`apps/business/models.py`): the same
two formulas as the `Income` version. -/
def expenseCalculateTaxAmount (amount taxRate : ℚ) (isTaxInclusive : Bool) : ℚ :=
  if isTaxInclusive then
    amount * taxRate / (100 + taxRate)
  else
    amount * taxRate / 100

/-- `Income.save` (`apps/business/models.py`): before delegating to the
framework save, replace `tax_amount` by `calculate_tax_amount()` when
`tax_amount == 0 and tax_rate > 0`. -/
def incomeModelSaveTaxAmount (amount taxRate taxAmount : ℚ) (isTaxInclusive : Bool) : ℚ :=
  if taxAmount = 0 ∧ taxRate > 0 then
    incomeCalculateTaxAmount amount taxRate isTaxInclusive
  else
    taxAmount

/-- `income_pre_save` (`apps/business/signals.py`): fired inside the
framework save, replaces `tax_amount` by `calculate_tax_amount()` when
`tax_rate > 0 and tax_amount == 0`. -/
def incomePreSaveTaxAmount (amount taxRate taxAmount : ℚ) (isTaxInclusive : Bool) : ℚ :=
  if taxRate > 0 ∧ taxAmount = 0 then
    incomeCalculateTaxAmount amount taxRate isTaxInclusive
  else
    taxAmount

/-- The `tax_amount` actually persisted by an `Income` save: the `save`
override runs first, then the `pre_save` signal fires inside
`super().save()`. -/
def incomePersistedTaxAmount (amount taxRate taxAmount : ℚ) (isTaxInclusive : Bool) : ℚ :=
  incomePreSaveTaxAmount amount taxRate
    (incomeModelSaveTaxAmount amount taxRate taxAmount isTaxInclusive) isTaxInclusive

/-- `Expense.save` (`apps/business/models.py`), same guard as the income
version. -/
def expenseModelSaveTaxAmount (amount taxRate taxAmount : ℚ) (isTaxInclusive : Bool) : ℚ :=
  if taxAmount = 0 ∧ taxRate > 0 then
    expenseCalculateTaxAmount amount taxRate isTaxInclusive
  else
    taxAmount

/-- `expense_pre_save` (`apps/business/signals.py`), same guard as the
income version. -/
def expensePreSaveTaxAmount (amount taxRate taxAmount : ℚ) (isTaxInclusive : Bool) : ℚ :=
  if taxRate > 0 ∧ taxAmount = 0 then
    expenseCalculateTaxAmount amount taxRate isTaxInclusive
  else
    taxAmount

/-- The `tax_amount` actually persisted by an `Expense` save. -/
def expensePersistedTaxAmount (amount taxRate taxAmount : ℚ) (isTaxInclusive : Bool) : ℚ :=
  expensePreSaveTaxAmount amount taxRate
    (expenseModelSaveTaxAmount amount taxRate taxAmount isTaxInclusive) isTaxInclusive

/-- `Expense.business_deductible_amount` (`apps/business/models.py`):
`amount * business_use_percentage / 100`. -/
def Expense.businessDeductibleAmount (e : Expense) : ℚ :=
  e.amount * e.businessUsePercentage / 100

/-- The value dictionary returned by
`TaxCalculationViewSet._calculate_tax_for_period`
(`apps/business/views.py`). -/
structure TaxPeriodResult where
  periodStart : Date
  periodEnd : Date
  calculationType : String
  totalIncome : ℚ
  totalIncomeTax : ℚ
  totalExpenses : ℚ
  businessExpenses : ℚ
  totalExpenseTax : ℚ
  netIncome : ℚ
  netTax : ℚ
  blueTaxDeduction : ℚ
  taxableIncome : ℚ
  incomeCount : Nat
  expenseCount : Nat
deriving DecidableEq, Repr

/-- The income queryset of `_calculate_tax_for_period`:
`Income.objects.filter(user=user, date__gte=start_date,
date__lte=end_date, status='confirmed')`. -/
def periodConfirmedIncomes (userId : Nat) (startDate endDate : Date)
    (incomes : List Income) : List Income :=
  incomes.filter fun i =>
    (i.userId == userId) && Date.ble startDate i.date && Date.ble i.date endDate &&
      (i.status == Status.confirmed)

/-- The expense queryset of `_calculate_tax_for_period`:
`Expense.objects.filter(user=user, date__gte=start_date,
date__lte=end_date, status='confirmed')`. -/
def periodConfirmedExpenses (userId : Nat) (startDate endDate : Date)
    (expenses : List Expense) : List Expense :=
  expenses.filter fun e =>
    (e.userId == userId) && Date.ble startDate e.date && Date.ble e.date endDate &&
      (e.status == Status.confirmed)

/-- `TaxCalculationViewSet._calculate_tax_for_period`
(`apps/business/views.py`): aggregates confirmed transactions of the
period, derives `net_income = total_income - business_expenses`,
`blue_tax_deduction = min(net_income, 650000)` when the owner is
blue-tax approved (else 0), and
`taxable_income = max(net_income - blue_tax_deduction, 0)`.
`blueTaxApproved` embeds `user.detail.blue_tax_return_approved`. -/
def calculateTaxForPeriod (userId : Nat) (startDate endDate : Date)
    (calculationType : String) (blueTaxApproved : Bool)
    (incomes : List Income) (expenses : List Expense) : TaxPeriodResult :=
  let incs := periodConfirmedIncomes userId startDate endDate incomes
  let exps := periodConfirmedExpenses userId startDate endDate expenses
  let totalIncome := (incs.map (·.amount)).sum
  let totalIncomeTax := (incs.map (·.taxAmount)).sum
  let totalExpenses := (exps.map (·.amount)).sum
  let totalExpenseTax := (exps.map (·.taxAmount)).sum
  let businessExpenses := (exps.map Expense.businessDeductibleAmount).sum
  let netIncome := totalIncome - businessExpenses
  let netTax := totalIncomeTax - totalExpenseTax
  let blueTaxDeduction := if blueTaxApproved then min netIncome 650000 else 0
  let taxableIncome := max (netIncome - blueTaxDeduction) 0
  { periodStart := startDate
    periodEnd := endDate
    calculationType := calculationType
    totalIncome := totalIncome
    totalIncomeTax := totalIncomeTax
    totalExpenses := totalExpenses
    businessExpenses := businessExpenses
    totalExpenseTax := totalExpenseTax
    netIncome := netIncome
    netTax := netTax
    blueTaxDeduction := blueTaxDeduction
    taxableIncome := taxableIncome
    incomeCount := incs.length
    expenseCount := exps.length }

/-- The deduction fields of `financial.models.TaxCalculation`
(`financial/models.py`), the second, UUID-keyed variant of the tax
calculation model; the repo's configured basic deduction default is
480000. -/
structure FinTaxCalculation where
  totalIncome : ℚ
  totalExpenses : ℚ
  totalDeductibleExpenses : ℚ
  basicDeduction : ℚ
  blueFormDeduction : ℚ
  otherDeductions : ℚ
  isFinal : Bool
deriving DecidableEq, Repr

/-- `financial.models.TaxCalculation.net_income`:
`total_income - total_deductible_expenses`. -/
def FinTaxCalculation.netIncome (c : FinTaxCalculation) : ℚ :=
  c.totalIncome - c.totalDeductibleExpenses

/-- `financial.models.TaxCalculation.total_deductions`:
`basic_deduction + blue_form_deduction + other_deductions`. -/
def FinTaxCalculation.totalDeductions (c : FinTaxCalculation) : ℚ :=
  c.basicDeduction + c.blueFormDeduction + c.otherDeductions

/-- `financial.models.TaxCalculation.taxable_income`:
`max(net_income - total_deductions, 0)`. -/
def FinTaxCalculation.taxableIncome (c : FinTaxCalculation) : ℚ :=
  max (c.netIncome - c.totalDeductions) 0

/-- Number of days in a Gregorian calendar month, `datetime` rules; the
source obtains the month end as the first day of the next month minus
one day. -/
def daysInMonth (y m : Nat) : Nat :=
  if m = 2 then
    (if (y % 4 = 0 ∧ y % 100 ≠ 0) ∨ y % 400 = 0 then 29 else 28)
  else if m = 4 ∨ m = 6 ∨ m = 9 ∨ m = 11 then 30
  else 31

/-- First day of the month after `d`
(`FinancialSummaryView._calculate_summary`: `replace(month+1, day=1)`
with a year rollover at December). -/
def nextMonthFirst (d : Date) : Date :=
  if d.month = 12 then ⟨d.year + 1, 1, 1⟩ else ⟨d.year, d.month + 1, 1⟩

/-- Last day of the month of `d` (the source's
`next-month-first - timedelta(days=1)`). -/
def monthEnd (d : Date) : Date :=
  ⟨d.year, d.month, daysInMonth d.year d.month⟩

/-- Linear month index `year * 12 + month`; two first-of-month dates
compare exactly as their indices. -/
def monthKey (d : Date) : Nat :=
  d.year * 12 + d.month

/-- The income queryset of `FinancialSummaryView.get` for a regular
user: `Income.objects.filter(user=user, date__gte=start_date,
date__lte=end_date)` — no status filter. -/
def summaryIncomes (userId : Nat) (startDate endDate : Date)
    (incomes : List Income) : List Income :=
  incomes.filter fun i =>
    (i.userId == userId) && Date.ble startDate i.date && Date.ble i.date endDate

/-- The expense queryset of `FinancialSummaryView.get` for a regular
user — no status filter. -/
def summaryExpenses (userId : Nat) (startDate endDate : Date)
    (expenses : List Expense) : List Expense :=
  expenses.filter fun e =>
    (e.userId == userId) && Date.ble startDate e.date && Date.ble e.date endDate

/-- One element of the `monthly_data` list built by
`FinancialSummaryView._calculate_summary` (the `'%Y-%m'` label embedded
as the year/month pair). -/
structure MonthEntry where
  year : Nat
  month : Nat
  income : ℚ
  expenses : ℚ
  net : ℚ
deriving DecidableEq, Repr

/-- The `while current_date <= end_date` loop of
`FinancialSummaryView._calculate_summary`, as fueled recursion: every
iteration advances `current` to the first day of the next month, which
raises `monthKey` by exactly one, so the source loop iterates at most
`monthKey endDate + 1 - monthKey current` times; callers supply exactly
that fuel. -/
def monthlyDataLoop (incs : List Income) (exps : List Expense) (endDate : Date) :
    Nat → Date → List MonthEntry
  | 0, _ => []
  | fuel + 1, current =>
    if Date.ble current endDate then
      let windowEnd := Date.min (monthEnd current) endDate
      let monthIncomes := incs.filter fun i =>
        Date.ble current i.date && Date.ble i.date windowEnd
      let monthExpenses := exps.filter fun e =>
        Date.ble current e.date && Date.ble e.date windowEnd
      let monthIncomeTotal := (monthIncomes.map (·.amount)).sum
      let monthExpenseTotal := (monthExpenses.map (·.amount)).sum
      { year := current.year, month := current.month,
        income := monthIncomeTotal, expenses := monthExpenseTotal,
        net := monthIncomeTotal - monthExpenseTotal }
        :: monthlyDataLoop incs exps endDate fuel (nextMonthFirst current)
    else []

/-- The `monthly_data` of `_calculate_summary`: the loop starts at
`start_date.replace(day=1)` and runs over the already range-filtered
querysets. -/
def summaryMonthlyData (startDate endDate : Date)
    (incs : List Income) (exps : List Expense) : List MonthEntry :=
  monthlyDataLoop incs exps endDate
    (monthKey endDate + 1 - monthKey ⟨startDate.year, startDate.month, 1⟩)
    ⟨startDate.year, startDate.month, 1⟩

/-- `income_by_category` of `_calculate_summary`: one entry per distinct
category name of the queryset with the summed amount. -/
def incomeByCategory (l : List Income) : List (String × ℚ) :=
  ((l.map (·.categoryName)).dedup).map fun name =>
    (name, ((l.filter fun i => i.categoryName == name).map (·.amount)).sum)

/-- `expenses_by_category` of `_calculate_summary`. -/
def expensesByCategory (l : List Expense) : List (String × ℚ) :=
  ((l.map (·.categoryName)).dedup).map fun name =>
    (name, ((l.filter fun e => e.categoryName == name).map (·.amount)).sum)

/-- The dictionary returned by `FinancialSummaryView._calculate_summary`. -/
structure FinancialSummary where
  periodStart : Date
  periodEnd : Date
  totalIncome : ℚ
  totalExpenses : ℚ
  netIncome : ℚ
  totalIncomeTax : ℚ
  totalExpenseTax : ℚ
  netTax : ℚ
  incomeByCategory : List (String × ℚ)
  expensesByCategory : List (String × ℚ)
  monthlyData : List MonthEntry
deriving DecidableEq, Repr

/-- `FinancialSummaryView.get` plus `_calculate_summary` for a regular
(non-admin) user with explicit start and end dates: filters the user's
transactions to the range (any status), then computes totals, category
breakdowns and monthly data. -/
def calculateSummary (userId : Nat) (startDate endDate : Date)
    (incomes : List Income) (expenses : List Expense) : FinancialSummary :=
  let incs := summaryIncomes userId startDate endDate incomes
  let exps := summaryExpenses userId startDate endDate expenses
  let totalIncome := (incs.map (·.amount)).sum
  let totalExpenses := (exps.map (·.amount)).sum
  let totalIncomeTax := (incs.map (·.taxAmount)).sum
  let totalExpenseTax := (exps.map (·.taxAmount)).sum
  { periodStart := startDate
    periodEnd := endDate
    totalIncome := totalIncome
    totalExpenses := totalExpenses
    netIncome := totalIncome - totalExpenses
    totalIncomeTax := totalIncomeTax
    totalExpenseTax := totalExpenseTax
    netTax := totalIncomeTax - totalExpenseTax
    incomeByCategory := incomeByCategory incs
    expensesByCategory := expensesByCategory exps
    monthlyData := summaryMonthlyData startDate endDate incs exps }

/-- Insertion into a list sorted ascending (helper for embedding the
`order_by('month')` clause of `IncomeViewSet.summary`). -/
def insertSortedNat (x : Nat) : List Nat → List Nat
  | [] => [x]
  | y :: ys => if x ≤ y then x :: y :: ys else y :: insertSortedNat x ys

/-- Insertion sort on naturals. -/
def sortNats : List Nat → List Nat
  | [] => []
  | x :: xs => insertSortedNat x (sortNats xs)

/-- The queryset of `IncomeViewSet.summary` for a regular user: the
user's incomes, optionally restricted by `start_date`/`end_date` query
parameters — again no status filter. -/
def incomeSummaryQueryset (userId : Nat) (startDate? endDate? : Option Date)
    (incomes : List Income) : List Income :=
  let base := incomes.filter fun i => i.userId == userId
  let base := match startDate? with
    | some s => base.filter fun i => Date.ble s i.date
    | none => base
  match endDate? with
  | some e => base.filter fun i => Date.ble i.date e
  | none => base

/-- The `monthly_breakdown` of `IncomeViewSet.summary`:
`values(month).annotate(total, count).order_by('month')` — one entry per
month string that occurs in the queryset (embedded as its `monthKey`),
ordered chronologically, with the month's total and row count. -/
def incomeSummaryMonthlyBreakdown (userId : Nat) (startDate? endDate? : Option Date)
    (incomes : List Income) : List (Nat × ℚ × Nat) :=
  let qs := incomeSummaryQueryset userId startDate? endDate? incomes
  let months := sortNats ((qs.map fun i => monthKey i.date).dedup)
  months.map fun m =>
    (m, ((qs.filter fun i => monthKey i.date == m).map (·.amount)).sum,
      (qs.filter fun i => monthKey i.date == m).length)

/-- A stored business-app `TaxCalculation` row as seen by
`invalidate_tax_calculations`: owner, period range, and the `updated_at`
marker the signal touches. -/
structure StoredTaxCalculation where
  userId : Nat
  startDate : Date
  endDate : Date
  updatedAt : Nat
deriving DecidableEq, Repr

/-- `invalidate_tax_calculations` (`apps/business/signals.py`): for the
writing transaction's owner and date, every `TaxCalculation` with
`start_date <= date <= end_date` gets its `updated_at` set to the
current time; all other rows are left as they are. -/
def invalidateTaxCalculations (userId : Nat) (d : Date) (now : Nat)
    (calcs : List StoredTaxCalculation) : List StoredTaxCalculation :=
  calcs.map fun c =>
    if (c.userId == userId) && Date.ble c.startDate d && Date.ble d c.endDate then
      { c with updatedAt := now }
    else c

/-- The signal is registered on `post_save` and `post_delete` of
`Income` unconditionally: it reads only `instance.user` and
`instance.date`, never `instance.status`. -/
def incomeWriteInvalidation (i : Income) (now : Nat)
    (calcs : List StoredTaxCalculation) : List StoredTaxCalculation :=
  invalidateTaxCalculations i.userId i.date now calcs

/-- The same signal registration for `Expense` writes and deletes. -/
def expenseWriteInvalidation (x : Expense) (now : Nat)
    (calcs : List StoredTaxCalculation) : List StoredTaxCalculation :=
  invalidateTaxCalculations x.userId x.date now calcs

/-- `DEPRECIATION_METHODS` of `financial.models.Asset`. -/
inductive DepreciationMethod where
  | straight_line
  | declining_balance
deriving DecidableEq, Repr

/-- The fields of `financial.models.Asset` used by the depreciation
properties. -/
structure Asset where
  purchaseAmount : ℚ
  salvageValue : ℚ
  usefulLifeYears : Nat
  accumulatedDepreciation : ℚ
  depreciationMethod : DepreciationMethod
deriving DecidableEq, Repr

/-- `Asset.annual_depreciation` (`financial/models.py`): straight-line
gives `(purchase_amount - salvage_value) / useful_life_years`; the
declining-balance branch gives `purchase_amount * Decimal('0.2')`. -/
def Asset.annualDepreciation (a : Asset) : ℚ :=
  if a.depreciationMethod = DepreciationMethod.straight_line then
    (a.purchaseAmount - a.salvageValue) / (a.usefulLifeYears : ℚ)
  else
    a.purchaseAmount * (0.2 : ℚ)

/-- `Asset.book_value` (`financial/models.py`):
`purchase_amount - accumulated_depreciation`. -/
def Asset.bookValue (a : Asset) : ℚ :=
  a.purchaseAmount - a.accumulatedDepreciation

/-- Posting one year of the model's `annual_depreciation` into the
running `accumulated_depreciation` total — the operation the claim
quantifies over; the repository itself has no automatic posting
(`financial/signals.py` leaves depreciation updates TODO) and no
clamping anywhere. -/
def Asset.applyAnnualDepreciation (a : Asset) : Asset :=
  { a with accumulatedDepreciation := a.accumulatedDepreciation + a.annualDepreciation }

/-- An HTTP response of `TaxCalculationViewSet.calculate`: either a 400
with an error message or a 200 carrying the computed period data. -/
inductive CalculateResponse where
  | badRequest (error : String)
  | ok (data : TaxPeriodResult)
deriving DecidableEq, Repr

/-- Whether a `calculate` response is the 200 branch. -/
def CalculateResponse.isOk : CalculateResponse → Bool
  | .ok _ => true
  | .badRequest _ => false

/-- `TaxCalculationViewSet.calculate` (`apps/business/views.py`) with
parsed inputs: `none` embeds a missing or unparseable date parameter
(each answered with a 400 before computing); with both dates parsed the
action immediately computes and returns `_calculate_tax_for_period` —
there is no comparison of `start_date` against `end_date`. -/
def calculateAction (userId : Nat) (blueTaxApproved : Bool)
    (incomes : List Income) (expenses : List Expense)
    (startDate? endDate? : Option Date) (calculationType : String) : CalculateResponse :=
  match startDate?, endDate? with
  | some s, some e =>
      CalculateResponse.ok
        (calculateTaxForPeriod userId s e calculationType blueTaxApproved incomes expenses)
  | _, _ => CalculateResponse.badRequest "start_date and end_date are required"

/-- The date-range check of `TaxCalculationSerializer.validate`
(`apps/business/serializers.py`): `start_date >= end_date` raises a
validation error. -/
def taxCalculationSerializerValidateDates (startDate endDate : Date) : Except String Unit :=
  if Date.ble endDate startDate then
    Except.error "End date must be after start date."
  else
    Except.ok ()

/-- A persisted row of the business-app `TaxCalculation` model
(`apps/business/models.py`): `unique_together = (user, calculation_type,
start_date, end_date)`; the model has no `is_final` field. -/
structure TaxCalculationRow where
  userId : Nat
  calculationType : String
  startDate : Date
  endDate : Date
  totalIncome : ℚ
  taxableIncome : ℚ
deriving DecidableEq, Repr

/-- The `calculate` action's effect on the persisted store: it returns
the computed data as the response and performs no create or update of
`TaxCalculation` rows. -/
def calculateActionStore (userId : Nat) (blueTaxApproved : Bool)
    (incomes : List Income) (expenses : List Expense)
    (startDate? endDate? : Option Date) (calculationType : String)
    (store : List TaxCalculationRow) : CalculateResponse × List TaxCalculationRow :=
  (calculateAction userId blueTaxApproved incomes expenses startDate? endDate? calculationType,
    store)

/-- Whether a new row's (user, calculation_type, start_date, end_date)
key collides with a stored row. -/
def hasKeyConflict (store : List TaxCalculationRow) (r : TaxCalculationRow) : Bool :=
  store.any fun q =>
    (q.userId == r.userId) && (q.calculationType == r.calculationType) &&
      decide (q.startDate = r.startDate) && decide (q.endDate = r.endDate)

/-- The REST create path for `TaxCalculation`: the model serializer
derives a unique-together validator from the model's `unique_together`,
so a duplicate key is rejected; otherwise the row is inserted. -/
def createTaxCalculation (store : List TaxCalculationRow) (r : TaxCalculationRow) :
    Except String (List TaxCalculationRow) :=
  if hasKeyConflict store r then
    Except.error "The fields user, calculation_type, start_date, end_date must make a unique set."
  else
    Except.ok (store ++ [r])

end Financial

namespace Financial

/-- C4: for every transaction the computed tax amount is
`amount * tax_rate / (100 + tax_rate)` when tax-inclusive and
`amount * tax_rate / 100` when tax-exclusive, and the `Income` and
`Expense` computations are identical. -/
theorem c4_calculate_tax_amount (amount taxRate : ℚ) (isTaxInclusive : Bool) :
    incomeCalculateTaxAmount amount taxRate isTaxInclusive =
      (if isTaxInclusive then amount * taxRate / (100 + taxRate)
        else amount * taxRate / 100) ∧
    expenseCalculateTaxAmount amount taxRate isTaxInclusive =
      (if isTaxInclusive then amount * taxRate / (100 + taxRate)
        else amount * taxRate / 100) ∧
    incomeCalculateTaxAmount amount taxRate isTaxInclusive =
      expenseCalculateTaxAmount amount taxRate isTaxInclusive := by
  refine ⟨rfl, rfl, ?_⟩
  simp [incomeCalculateTaxAmount, expenseCalculateTaxAmount]

/-- A blue-tax-approved owner with a single confirmed in-range expense
of 100 (full business use) and no income: the period computation yields
`net_income = -100`. -/
def c1CounterExpense : Expense :=
  { userId := 1, date := ⟨2024, 6, 15⟩, amount := 100, taxAmount := 0, taxRate := 0,
    isTaxInclusive := true, businessUsePercentage := 100,
    status := Status.confirmed, categoryName := "SUP001" }

/-- The period result for the C1 counterexample input. -/
def c1CounterResult : TaxPeriodResult :=
  calculateTaxForPeriod 1 ⟨2024, 1, 1⟩ ⟨2024, 12, 31⟩ "annual" true [] [c1CounterExpense]

/-- C1 counterexample: with a blue-tax-approved owner and `net_income = -100 ≤ 0`,
the code produces `blue_tax_deduction = min(-100, 650000) = -100`, not 0 —
refuting the claim that the deduction equals 0 whenever `net_income ≤ 0`. -/
theorem c1_counterexample :
    c1CounterResult.netIncome = -100 ∧
    c1CounterResult.netIncome ≤ 0 ∧
    c1CounterResult.blueTaxDeduction = -100 ∧
    c1CounterResult.blueTaxDeduction ≠ 0 := by
  refine ⟨?_, ?_, ?_, ?_⟩ <;>
    norm_num [c1CounterResult, c1CounterExpense, calculateTaxForPeriod,
      periodConfirmedIncomes, periodConfirmedExpenses, Date.ble,
      Expense.businessDeductibleAmount, List.filter]

/-- C1 (amended): `blue_tax_deduction` equals `min(net_income, 650000)`
when the owner is blue-tax approved and 0 otherwise; it never exceeds the
650000 cap; when approved it never exceeds `net_income` (and so is
negative, equal to `net_income`, when `net_income < 0`), and when not
approved it is 0 regardless of `net_income`. -/
theorem c1_blue_tax_deduction (userId : Nat) (startDate endDate : Date)
    (calculationType : String) (blueTaxApproved : Bool)
    (incomes : List Income) (expenses : List Expense) :
    (calculateTaxForPeriod userId startDate endDate calculationType blueTaxApproved
        incomes expenses).blueTaxDeduction =
      (if blueTaxApproved then
        min (calculateTaxForPeriod userId startDate endDate calculationType blueTaxApproved
          incomes expenses).netIncome 650000
      else 0) ∧
    (calculateTaxForPeriod userId startDate endDate calculationType blueTaxApproved
        incomes expenses).blueTaxDeduction ≤ 650000 ∧
    (if blueTaxApproved then
      (calculateTaxForPeriod userId startDate endDate calculationType blueTaxApproved
          incomes expenses).blueTaxDeduction ≤
        (calculateTaxForPeriod userId startDate endDate calculationType blueTaxApproved
          incomes expenses).netIncome
    else
      (calculateTaxForPeriod userId startDate endDate calculationType blueTaxApproved
          incomes expenses).blueTaxDeduction = 0) := by
  cases blueTaxApproved <;>
    simp [calculateTaxForPeriod, min_le_left, min_le_right]

/-- The C2 counterexample input: one confirmed in-range income of
1,000,000 for an owner who is not blue-tax approved. -/
def c2CounterIncome : Income :=
  { userId := 1, date := ⟨2024, 6, 15⟩, amount := 1000000, taxAmount := 0, taxRate := 0,
    isTaxInclusive := true, status := Status.confirmed, categoryName := "BUS001" }

/-- The period result for the C2 counterexample input. -/
def c2CounterResult : TaxPeriodResult :=
  calculateTaxForPeriod 1 ⟨2024, 1, 1⟩ ⟨2024, 12, 31⟩ "annual" false [c2CounterIncome] []

/-- C2 counterexample: the period computation yields
`taxable_income = 1000000 = max(net_income - blue_tax_deduction, 0)` with
no basic deduction subtracted; with the repository's configured basic
deduction of 480000 the claimed formula
`max(net_income - blue_tax_deduction - basic_deduction, 0)` would give
520000 instead. -/
theorem c2_counterexample :
    c2CounterResult.taxableIncome = 1000000 ∧
    max (c2CounterResult.netIncome - c2CounterResult.blueTaxDeduction - 480000) 0 = 520000 ∧
    c2CounterResult.taxableIncome ≠
      max (c2CounterResult.netIncome - c2CounterResult.blueTaxDeduction - 480000) 0 := by
  refine ⟨?_, ?_, ?_⟩ <;>
    norm_num [c2CounterResult, c2CounterIncome, calculateTaxForPeriod,
      periodConfirmedIncomes, periodConfirmedExpenses, Date.ble,
      Expense.businessDeductibleAmount, List.filter]

/-- C2 (amended): the period computation produces
`taxable_income = max(net_income - blue_tax_deduction, 0)` — no basic
deduction is subtracted there — while the `financial` app's
`TaxCalculation.taxable_income` property subtracts
`basic_deduction + blue_form_deduction + other_deductions` before
clamping; both results are never negative. -/
theorem c2_taxable_income (userId : Nat) (startDate endDate : Date)
    (calculationType : String) (blueTaxApproved : Bool)
    (incomes : List Income) (expenses : List Expense) (c : FinTaxCalculation) :
    (calculateTaxForPeriod userId startDate endDate calculationType blueTaxApproved
        incomes expenses).taxableIncome =
      max ((calculateTaxForPeriod userId startDate endDate calculationType blueTaxApproved
          incomes expenses).netIncome -
        (calculateTaxForPeriod userId startDate endDate calculationType blueTaxApproved
          incomes expenses).blueTaxDeduction) 0 ∧
    0 ≤ (calculateTaxForPeriod userId startDate endDate calculationType blueTaxApproved
        incomes expenses).taxableIncome ∧
    c.taxableIncome =
      max (c.netIncome - (c.basicDeduction + c.blueFormDeduction + c.otherDeductions)) 0 ∧
    0 ≤ c.taxableIncome := by
  refine ⟨rfl, ?_, rfl, ?_⟩
  · simp [calculateTaxForPeriod]
  · simp [FinTaxCalculation.taxableIncome]

lemma periodConfirmedIncomes_filter_confirmed (userId : Nat) (s e : Date)
    (incomes : List Income) :
    periodConfirmedIncomes userId s e
        (incomes.filter fun i => i.status == Status.confirmed) =
      periodConfirmedIncomes userId s e incomes := by
  unfold periodConfirmedIncomes
  rw [List.filter_filter]
  refine List.filter_congr fun a _ => ?_
  by_cases h : a.status = Status.confirmed <;> simp [h]

lemma periodConfirmedExpenses_filter_confirmed (userId : Nat) (s e : Date)
    (expenses : List Expense) :
    periodConfirmedExpenses userId s e
        (expenses.filter fun x => x.status == Status.confirmed) =
      periodConfirmedExpenses userId s e expenses := by
  unfold periodConfirmedExpenses
  rw [List.filter_filter]
  refine List.filter_congr fun a _ => ?_
  by_cases h : a.status = Status.confirmed <;> simp [h]

lemma summaryIncomes_map_status (userId : Nat) (s e : Date)
    (f : Income → Status) (l : List Income) :
    summaryIncomes userId s e (l.map fun i => { i with status := f i }) =
      (summaryIncomes userId s e l).map fun i => { i with status := f i } := by
  unfold summaryIncomes
  rw [List.filter_map]
  rfl

lemma summaryExpenses_map_status (userId : Nat) (s e : Date)
    (g : Expense → Status) (l : List Expense) :
    summaryExpenses userId s e (l.map fun x => { x with status := g x }) =
      (summaryExpenses userId s e l).map fun x => { x with status := g x } := by
  unfold summaryExpenses
  rw [List.filter_map]
  rfl

lemma incomeByCategory_map_status (f : Income → Status) (l : List Income) :
    incomeByCategory (l.map fun i => { i with status := f i }) =
      incomeByCategory l := by
  unfold incomeByCategory
  simp only [List.filter_map, List.map_map]
  rfl

lemma expensesByCategory_map_status (g : Expense → Status) (l : List Expense) :
    expensesByCategory (l.map fun x => { x with status := g x }) =
      expensesByCategory l := by
  unfold expensesByCategory
  simp only [List.filter_map, List.map_map]
  rfl

lemma monthlyDataLoop_map_status (f : Income → Status) (g : Expense → Status)
    (endDate : Date) (n : Nat) :
    ∀ (cur : Date) (incs : List Income) (exps : List Expense),
      monthlyDataLoop (incs.map fun i => { i with status := f i })
          (exps.map fun x => { x with status := g x }) endDate n cur =
        monthlyDataLoop incs exps endDate n cur := by
  induction n with
  | zero => intro cur incs exps; rfl
  | succ n ih =>
    intro cur incs exps
    simp only [monthlyDataLoop, List.filter_map, List.map_map]
    split
    · exact congrArg (List.cons _) (ih _ _ _)
    · rfl

/-- A cancelled income of 500 inside the summary range for user 1. -/
def c3CancelledIncome : Income :=
  { userId := 1, date := ⟨2024, 6, 15⟩, amount := 500, taxAmount := 0, taxRate := 0,
    isTaxInclusive := true, status := Status.cancelled, categoryName := "BUS001" }

/-- The financial summary over 2024 computed from the single cancelled
income. -/
def c3CancelledSummary : FinancialSummary :=
  calculateSummary 1 ⟨2024, 1, 1⟩ ⟨2024, 12, 31⟩ [c3CancelledIncome] []

/-- C3 counterexample: the financial-summary computation applies no
status filter, so a cancelled income of 500 contributes its full amount
to `total_income` — refuting the claim that only confirmed records
contribute and cancelled ones are excluded unconditionally. -/
theorem c3_counterexample :
    c3CancelledIncome.status = Status.cancelled ∧
    c3CancelledSummary.totalIncome = 500 ∧
    c3CancelledSummary.totalIncome ≠ 0 := by
  refine ⟨rfl, ?_, ?_⟩ <;>
    norm_num [c3CancelledSummary, c3CancelledIncome, calculateSummary,
      summaryIncomes, summaryExpenses, Date.ble, List.filter]

/-- C3 (amended): only the tax-period calculation restricts aggregation
to confirmed transactions — its result is unchanged when the inputs are
pre-filtered to confirmed records, so pending and cancelled records
never affect it; the financial-summary computation ignores transaction
status entirely — its totals, category breakdowns and monthly breakdowns
are invariant under arbitrary reassignment of every record's status. -/
theorem c3_status_scope (userId : Nat) (s e : Date) (calculationType : String)
    (blueTaxApproved : Bool) (incomes : List Income) (expenses : List Expense)
    (f : Income → Status) (g : Expense → Status) :
    calculateTaxForPeriod userId s e calculationType blueTaxApproved incomes expenses =
      calculateTaxForPeriod userId s e calculationType blueTaxApproved
        (incomes.filter fun i => i.status == Status.confirmed)
        (expenses.filter fun x => x.status == Status.confirmed) ∧
    calculateSummary userId s e
        (incomes.map fun i => { i with status := f i })
        (expenses.map fun x => { x with status := g x }) =
      calculateSummary userId s e incomes expenses := by
  constructor
  · unfold calculateTaxForPeriod
    rw [periodConfirmedIncomes_filter_confirmed, periodConfirmedExpenses_filter_confirmed]
  · simp only [calculateSummary, summaryMonthlyData]
    rw [summaryIncomes_map_status, summaryExpenses_map_status,
      incomeByCategory_map_status, expensesByCategory_map_status,
      monthlyDataLoop_map_status]
    simp only [List.map_map]
    rfl

lemma monthKey_nextMonthFirst (d : Date) :
    monthKey (nextMonthFirst d) = monthKey d + 1 := by
  by_cases h : d.month = 12 <;> simp [nextMonthFirst, monthKey, h] <;> omega

lemma ble_firstOfMonth_iff (cy cm : Nat) (e : Date) (hm1 : 1 ≤ cm) (hm12 : cm ≤ 12)
    (he1 : 1 ≤ e.month) (he12 : e.month ≤ 12) (hed : 1 ≤ e.day) :
    Date.ble ⟨cy, cm, 1⟩ e = true ↔ cy * 12 + cm ≤ e.year * 12 + e.month := by
  simp only [Date.ble, Bool.or_eq_true, Bool.and_eq_true, decide_eq_true_eq]
  omega

lemma monthlyDataLoop_months (incs : List Income) (exps : List Expense) (e : Date)
    (he1 : 1 ≤ e.month) (he12 : e.month ≤ 12) (hed : 1 ≤ e.day) :
    ∀ (n cy cm : Nat), 1 ≤ cm → cm ≤ 12 →
      n = monthKey e + 1 - (cy * 12 + cm) →
      (monthlyDataLoop incs exps e n ⟨cy, cm, 1⟩).map (fun en => en.year * 12 + en.month) =
        List.range' (cy * 12 + cm) n := by
  intro n
  induction n with
  | zero => intro cy cm _ _ _; rfl
  | succ n ih =>
    intro cy cm h1 h12 hn
    have hle : cy * 12 + cm ≤ monthKey e := by
      unfold monthKey at hn ⊢; omega
    have hcond : Date.ble ⟨cy, cm, 1⟩ e = true :=
      (ble_firstOfMonth_iff cy cm e h1 h12 he1 he12 hed).mpr (by
        unfold monthKey at hle; omega)
    rw [List.range'_succ]
    simp only [monthlyDataLoop, hcond, if_true, List.map_cons]
    refine congrArg₂ List.cons rfl ?_
    by_cases hc : cm = 12
    · subst hc
      have step := ih (cy + 1) 1 (by omega) (by omega) (by
        unfold monthKey at hn ⊢; omega)
      have harith : (cy + 1) * 12 + 1 = cy * 12 + 12 + 1 := by ring
      rw [harith] at step
      simpa [nextMonthFirst] using step
    · have step := ih cy (cm + 1) (by omega) (by omega) (by
        unfold monthKey at hn ⊢; omega)
      have harith : cy * 12 + (cm + 1) = cy * 12 + cm + 1 := by ring
      rw [harith] at step
      simpa [nextMonthFirst, hc] using step

/-- C9 (amended): the financial-summary monthly breakdown contains
exactly one entry per calendar month between the month of `start_date`
and the month of `end_date` (every month fully or partially inside the
range), in chronological order and regardless of the transactions — so
zero-valued months appear and the series is contiguous; the
income-summary endpoint's monthly breakdown, by contrast, lists only the
months in which at least one queryset row falls. -/
theorem c9_monthly_breakdown (userId : Nat) (s e : Date)
    (incomes : List Income) (expenses : List Expense)
    (hs1 : 1 ≤ s.month) (hs12 : s.month ≤ 12)
    (he1 : 1 ≤ e.month) (he12 : e.month ≤ 12) (hed : 1 ≤ e.day) :
    ((calculateSummary userId s e incomes expenses).monthlyData).map
        (fun en => en.year * 12 + en.month) =
      List.range' (monthKey s) (monthKey e + 1 - monthKey s) := by
  have h := monthlyDataLoop_months
    (summaryIncomes userId s e incomes) (summaryExpenses userId s e expenses) e
    he1 he12 hed (monthKey e + 1 - (s.year * 12 + s.month)) s.year s.month hs1 hs12 rfl
  simpa [calculateSummary, summaryMonthlyData, monthKey] using h

/-- Closed instance of `c9_monthly_breakdown`: the 2024-01-15 to
2024-03-10 summary over an empty transaction store still has the three
months January, February, March 2024, in order. -/
theorem c9_monthly_breakdown_witness :
    ((calculateSummary 1 ⟨2024, 1, 15⟩ ⟨2024, 3, 10⟩ [] []).monthlyData).map
        (fun en => en.year * 12 + en.month) =
      List.range' (monthKey ⟨2024, 1, 15⟩)
        (monthKey ⟨2024, 3, 10⟩ + 1 - monthKey ⟨2024, 1, 15⟩) :=
  c9_monthly_breakdown 1 ⟨2024, 1, 15⟩ ⟨2024, 3, 10⟩ [] []
    (by decide) (by decide) (by decide) (by decide) (by decide)

/-- A single January income for the C9 counterexample. -/
def c9JanuaryIncome : Income :=
  { userId := 1, date := ⟨2024, 1, 10⟩, amount := 100, taxAmount := 0, taxRate := 0,
    isTaxInclusive := true, status := Status.confirmed, categoryName := "BUS001" }

/-- C9 counterexample: over the three-month range 2024-01-01 to
2024-03-31 with one January transaction, `IncomeViewSet.summary` returns
a monthly breakdown with a single (January) entry — February and March
have no zero-valued entries, so the claimed one-entry-per-month
contiguous series fails for that aggregation. -/
theorem c9_counterexample :
    incomeSummaryMonthlyBreakdown 1 (some ⟨2024, 1, 1⟩) (some ⟨2024, 3, 31⟩)
        [c9JanuaryIncome] =
      [(monthKey ⟨2024, 1, 10⟩, 100, 1)] ∧
    (incomeSummaryMonthlyBreakdown 1 (some ⟨2024, 1, 1⟩) (some ⟨2024, 3, 31⟩)
        [c9JanuaryIncome]).length ≠ 3 := by
  constructor <;>
    norm_num [incomeSummaryMonthlyBreakdown, incomeSummaryQueryset, c9JanuaryIncome,
      sortNats, insertSortedNat, monthKey, Date.ble, List.filter, List.dedup]

/-- A stale stored snapshot (total income 100) under the key
(user 1, monthly, 2024-01-01, 2024-12-31). -/
def c5OldRow : TaxCalculationRow :=
  { userId := 1, calculationType := "monthly", startDate := ⟨2024, 1, 1⟩,
    endDate := ⟨2024, 12, 31⟩, totalIncome := 100, taxableIncome := 100 }

/-- A confirmed income of 700 that a fresh run over the same period
would aggregate. -/
def c5FreshIncome : Income :=
  { userId := 1, date := ⟨2024, 6, 1⟩, amount := 700, taxAmount := 0, taxRate := 0,
    isTaxInclusive := true, status := Status.confirmed, categoryName := "BUS001" }

/-- C5 counterexample: re-running the tax calculation for the same key
leaves the persisted store untouched — the previous non-final snapshot
still carries total income 100 while the fresh computation yields 700 —
so the second run does not overwrite the previous snapshot
(no last-write-wins behaviour exists). -/
theorem c5_counterexample :
    (calculateActionStore 1 false [c5FreshIncome] [] (some ⟨2024, 1, 1⟩)
        (some ⟨2024, 12, 31⟩) "monthly" [c5OldRow]).2 = [c5OldRow] ∧
    (calculateTaxForPeriod 1 ⟨2024, 1, 1⟩ ⟨2024, 12, 31⟩ "monthly" false
        [c5FreshIncome] []).totalIncome = 700 ∧
    c5OldRow.totalIncome = 100 ∧
    (100 : ℚ) ≠ 700 := by
  refine ⟨rfl, ?_, rfl, by norm_num⟩
  norm_num [calculateTaxForPeriod, periodConfirmedIncomes, periodConfirmedExpenses,
    c5FreshIncome, Date.ble, List.filter]

/-- C5 (amended): the compute endpoint is read-only with respect to the
persisted `TaxCalculation` rows — the store after a run equals the store
before, whatever it contains; persisting a second row under an existing
(owner, calculation_type, start_date, end_date) key through the create
path is rejected by the unique-together validation rather than
overwriting, while a fresh key is inserted; the persisted business-app
model carries no `is_final` field, so no finality-based refusal exists. -/
theorem c5_no_overwrite (userId : Nat) (blueTaxApproved : Bool)
    (incomes : List Income) (expenses : List Expense)
    (startDate? endDate? : Option Date) (calculationType : String)
    (store : List TaxCalculationRow) (r : TaxCalculationRow) :
    (calculateActionStore userId blueTaxApproved incomes expenses startDate? endDate?
        calculationType store).2 = store ∧
    (hasKeyConflict store r = true →
      createTaxCalculation store r =
        Except.error
          "The fields user, calculation_type, start_date, end_date must make a unique set.") ∧
    (hasKeyConflict store r = false →
      createTaxCalculation store r = Except.ok (store ++ [r])) := by
  refine ⟨rfl, fun h => ?_, fun h => ?_⟩ <;> simp [createTaxCalculation, h]

/-- Closed instance of `c5_no_overwrite`: a one-row store with a
conflicting duplicate is left unchanged by a run and rejects the
duplicate create. -/
theorem c5_no_overwrite_witness :
    (calculateActionStore 1 false [] [] (some ⟨2024, 1, 1⟩) (some ⟨2024, 12, 31⟩)
        "monthly" [c5OldRow]).2 = [c5OldRow] ∧
    (hasKeyConflict [c5OldRow] c5OldRow = true →
      createTaxCalculation [c5OldRow] c5OldRow =
        Except.error
          "The fields user, calculation_type, start_date, end_date must make a unique set.") ∧
    (hasKeyConflict [c5OldRow] c5OldRow = false →
      createTaxCalculation [c5OldRow] c5OldRow = Except.ok ([c5OldRow] ++ [c5OldRow])) :=
  c5_no_overwrite 1 false [] [] (some ⟨2024, 1, 1⟩) (some ⟨2024, 12, 31⟩)
    "monthly" [c5OldRow] c5OldRow

/-- A stored tax calculation over 2024 for user 1, last updated at
time 5. -/
def c6StoredCalc : StoredTaxCalculation :=
  { userId := 1, startDate := ⟨2024, 1, 1⟩, endDate := ⟨2024, 12, 31⟩, updatedAt := 5 }

/-- A cancelled expense dated inside the stored calculation's range. -/
def c6CancelledExpense : Expense :=
  { userId := 1, date := ⟨2024, 6, 1⟩, amount := 50, taxAmount := 0, taxRate := 0,
    isTaxInclusive := true, businessUsePercentage := 100,
    status := Status.cancelled, categoryName := "SUP001" }

/-- C6 counterexample: saving a cancelled expense dated inside the
stored calculation's range still touches that calculation's
`updated_at` marker — the signal never consults the transaction's
status, so a cancelled transaction does trigger invalidation. -/
theorem c6_counterexample :
    c6CancelledExpense.status = Status.cancelled ∧
    expenseWriteInvalidation c6CancelledExpense 99 [c6StoredCalc] =
      [{ c6StoredCalc with updatedAt := 99 }] ∧
    expenseWriteInvalidation c6CancelledExpense 99 [c6StoredCalc] ≠ [c6StoredCalc] := by
  refine ⟨rfl, ?_, ?_⟩ <;>
    simp [expenseWriteInvalidation, invalidateTaxCalculations, c6CancelledExpense,
      c6StoredCalc, Date.ble, StoredTaxCalculation.mk.injEq]

/-- C6 (amended): any create/update/delete of an `Income` or `Expense`
touches the `updated_at` marker of exactly the same owner's stored
`TaxCalculation`s whose `[start_date, end_date]` range contains the
transaction's date, leaving every other row unchanged — and it does so
regardless of the transaction's status, so cancelled and pending
transactions trigger the very same invalidation as confirmed ones. -/
theorem c6_invalidation (i : Income) (x : Expense) (si : Status) (sx : Status)
    (now : Nat) (calcs : List StoredTaxCalculation) (k : Nat) :
    (incomeWriteInvalidation i now calcs)[k]? =
      (calcs[k]?).map (fun c =>
        if (c.userId == i.userId) && Date.ble c.startDate i.date && Date.ble i.date c.endDate
        then { c with updatedAt := now } else c) ∧
    (expenseWriteInvalidation x now calcs)[k]? =
      (calcs[k]?).map (fun c =>
        if (c.userId == x.userId) && Date.ble c.startDate x.date && Date.ble x.date c.endDate
        then { c with updatedAt := now } else c) ∧
    incomeWriteInvalidation { i with status := si } now calcs =
      incomeWriteInvalidation i now calcs ∧
    expenseWriteInvalidation { x with status := sx } now calcs =
      expenseWriteInvalidation x now calcs := by
  refine ⟨?_, ?_, rfl, rfl⟩ <;>
    simp [incomeWriteInvalidation, expenseWriteInvalidation, invalidateTaxCalculations,
      List.getElem?_map]

lemma declining_ne_straight :
    DepreciationMethod.declining_balance ≠ DepreciationMethod.straight_line := by
  intro h
  exact DepreciationMethod.noConfusion h

/-- A declining-balance asset already half depreciated: purchase 1000,
no salvage, accumulated 500. -/
def c7HalfDepreciatedAsset : Asset :=
  { purchaseAmount := 1000, salvageValue := 0, usefulLifeYears := 5,
    accumulatedDepreciation := 500,
    depreciationMethod := DepreciationMethod.declining_balance }

/-- A declining-balance asset whose next posting crosses the salvage
floor: purchase 1000, salvage 100, accumulated 800 (book value 200). -/
def c7NearFloorAsset : Asset :=
  { purchaseAmount := 1000, salvageValue := 100, usefulLifeYears := 5,
    accumulatedDepreciation := 800,
    depreciationMethod := DepreciationMethod.declining_balance }

/-- C7 counterexample: for the half-depreciated declining-balance asset
the code charges `1000 * 0.2 = 200` per year although 20% of the book
value at period start (500) is 100 — the rate is applied to the original
cost, not the book value; and posting one year of depreciation to the
near-floor asset drives its book value to 0, below the salvage value of
100 — no floor is enforced. -/
theorem c7_counterexample :
    c7HalfDepreciatedAsset.annualDepreciation = 200 ∧
    (0.2 : ℚ) * c7HalfDepreciatedAsset.bookValue = 100 ∧
    c7HalfDepreciatedAsset.annualDepreciation ≠
      (0.2 : ℚ) * c7HalfDepreciatedAsset.bookValue ∧
    (c7NearFloorAsset.applyAnnualDepreciation).bookValue = 0 ∧
    (c7NearFloorAsset.applyAnnualDepreciation).bookValue < c7NearFloorAsset.salvageValue := by
  refine ⟨?_, ?_, ?_, ?_, ?_⟩ <;>
    norm_num [Asset.annualDepreciation, Asset.bookValue, Asset.applyAnnualDepreciation,
      c7HalfDepreciatedAsset, c7NearFloorAsset, declining_ne_straight]

/-- C7 (amended): declining-balance annual depreciation is 20% of the
original `purchase_amount`, independent of the accumulated depreciation
(hence not of the book value at period start); straight-line is
`(purchase_amount - salvage_value) / useful_life_years`; book value is
`purchase_amount - accumulated_depreciation` with no salvage floor
enforced — posting a year of depreciation can drive book value below
`salvage_value`, as the near-floor asset shows. -/
theorem c7_depreciation (a : Asset) (q : ℚ) :
    Asset.annualDepreciation { a with accumulatedDepreciation := q } =
      a.annualDepreciation ∧
    a.annualDepreciation =
      (if a.depreciationMethod = DepreciationMethod.straight_line then
        (a.purchaseAmount - a.salvageValue) / (a.usefulLifeYears : ℚ)
      else a.purchaseAmount * (0.2 : ℚ)) ∧
    a.bookValue = a.purchaseAmount - a.accumulatedDepreciation ∧
    (c7NearFloorAsset.applyAnnualDepreciation).bookValue < c7NearFloorAsset.salvageValue := by
  refine ⟨rfl, rfl, rfl, ?_⟩
  norm_num [Asset.annualDepreciation, Asset.bookValue, Asset.applyAnnualDepreciation,
    c7NearFloorAsset, declining_ne_straight]

/-- C8 counterexample: for the reversed range 2024-02-01 (start) to
2024-01-01 (end) — so `start_date > end_date` — the `calculate` action
returns a 200 response carrying computed totals instead of rejecting the
request before aggregation. -/
theorem c8_counterexample :
    Date.ble ⟨2024, 1, 1⟩ ⟨2024, 2, 1⟩ = true ∧
    (⟨2024, 2, 1⟩ : Date) ≠ ⟨2024, 1, 1⟩ ∧
    (calculateAction 1 false [] [] (some ⟨2024, 2, 1⟩) (some ⟨2024, 1, 1⟩)
        "monthly").isOk = true ∧
    calculateAction 1 false [] [] (some ⟨2024, 2, 1⟩) (some ⟨2024, 1, 1⟩) "monthly" =
      CalculateResponse.ok
        (calculateTaxForPeriod 1 ⟨2024, 2, 1⟩ ⟨2024, 1, 1⟩ "monthly" false [] []) := by
  refine ⟨by decide, by decide, rfl, rfl⟩

/-- C8 (amended): the serializer used by the persist path rejects
`start_date >= end_date` with a validation error and accepts
`start_date < end_date`; the compute endpoint, however, performs no such
check — for any two parsed dates it computes and returns the period
aggregation. -/
theorem c8_date_validation (s e : Date) (userId : Nat) (blueTaxApproved : Bool)
    (incomes : List Income) (expenses : List Expense) (calculationType : String) :
    (Date.ble e s = true →
      taxCalculationSerializerValidateDates s e =
        Except.error "End date must be after start date.") ∧
    (Date.ble e s = false →
      taxCalculationSerializerValidateDates s e = Except.ok ()) ∧
    calculateAction userId blueTaxApproved incomes expenses (some s) (some e)
        calculationType =
      CalculateResponse.ok
        (calculateTaxForPeriod userId s e calculationType blueTaxApproved
          incomes expenses) := by
  refine ⟨fun h => ?_, fun h => ?_, rfl⟩ <;>
    simp [taxCalculationSerializerValidateDates, h]

/-- Closed instance of `c8_date_validation`: for 2024-01-01 / 2024-12-31
the serializer accepts the range and the endpoint returns the computed
data. -/
theorem c8_date_validation_witness :
    (Date.ble ⟨2024, 12, 31⟩ ⟨2024, 1, 1⟩ = true →
      taxCalculationSerializerValidateDates ⟨2024, 1, 1⟩ ⟨2024, 12, 31⟩ =
        Except.error "End date must be after start date.") ∧
    (Date.ble ⟨2024, 12, 31⟩ ⟨2024, 1, 1⟩ = false →
      taxCalculationSerializerValidateDates ⟨2024, 1, 1⟩ ⟨2024, 12, 31⟩ = Except.ok ()) ∧
    calculateAction 1 false [] [] (some ⟨2024, 1, 1⟩) (some ⟨2024, 12, 31⟩) "annual" =
      CalculateResponse.ok
        (calculateTaxForPeriod 1 ⟨2024, 1, 1⟩ ⟨2024, 12, 31⟩ "annual" false [] []) :=
  c8_date_validation ⟨2024, 1, 1⟩ ⟨2024, 12, 31⟩ 1 false [] [] "annual"

/-- C10: on every save of an `Income` or `Expense` the persisted
`tax_amount` is `calculate_tax_amount()` exactly when the supplied
`tax_amount` is 0 and `tax_rate > 0`, and is the supplied value
unchanged in every other case — for the composed effect of the `save`
override followed by the `pre_save` signal. -/
theorem c10_persisted_tax_amount (amount taxRate taxAmount : ℚ) (isTaxInclusive : Bool) :
    incomePersistedTaxAmount amount taxRate taxAmount isTaxInclusive =
      (if taxAmount = 0 ∧ taxRate > 0 then
        incomeCalculateTaxAmount amount taxRate isTaxInclusive
      else taxAmount) ∧
    expensePersistedTaxAmount amount taxRate taxAmount isTaxInclusive =
      (if taxAmount = 0 ∧ taxRate > 0 then
        expenseCalculateTaxAmount amount taxRate isTaxInclusive
      else taxAmount) := by
  constructor
  · unfold incomePersistedTaxAmount incomePreSaveTaxAmount incomeModelSaveTaxAmount
    by_cases h : taxAmount = 0 ∧ taxRate > 0
    · simp only [if_pos h]
      by_cases hz : taxRate > 0 ∧ incomeCalculateTaxAmount amount taxRate isTaxInclusive = 0
      · rw [if_pos hz]
      · rw [if_neg hz]
    · simp only [if_neg h]
      rw [if_neg (by tauto)]
  · unfold expensePersistedTaxAmount expensePreSaveTaxAmount expenseModelSaveTaxAmount
    by_cases h : taxAmount = 0 ∧ taxRate > 0
    · simp only [if_pos h]
      by_cases hz : taxRate > 0 ∧ expenseCalculateTaxAmount amount taxRate isTaxInclusive = 0
      · rw [if_pos hz]
      · rw [if_neg hz]
    · simp only [if_neg h]
      rw [if_neg (by tauto)]

end Financial
